import Mathlib

/-!
Verification of the parcel-enrichment subsystem (`agent_tools.py`,
`analyzer.py`, `app.py` / `server.py`) against its design document.

Shallow embedding conventions:
* Python floats are modelled as exact rationals (`ℚ`); Python's `round`
  (round-half-to-even, "banker's rounding") is modelled by `roundHalfEven`
  (to an integer) and `pyRound1` (to one decimal place).
* Remote HTTP calls are the I/O boundary: each is modelled by a parameter
  holding the call's outcome (`Option` — `none` covers both a raised
  exception and an unusable payload, exactly as the source's
  `try/except` blocks collapse them).
* The pandas `GeoDataFrame` shared by the request handlers is modelled as a
  list of rows; row labels are their positions (the frames are built with
  `ignore_index=True` / reloaded from file, i.e. carry a `RangeIndex`, so
  `.at[idx, col]` addresses the row currently at position `idx`).
-/

/-- Python's built-in `round(x)`: round to the nearest integer,
ties to the even integer (banker's rounding). -/
def roundHalfEven (q : ℚ) : ℤ :=
  let f := ⌊q⌋
  let r := q - (f : ℚ)
  if r < 1/2 then f
  else if 1/2 < r then f + 1
  else if f % 2 = 0 then f else f + 1

/-- Python's `round(x, 1)`: round to one decimal digit, ties to even. -/
def pyRound1 (q : ℚ) : ℚ :=
  (roundHalfEven (q * 10) : ℚ) / 10

/-- One DVF transaction record as consumed by `get_land_price_estimate`
(`agent_tools.py`): the fields of `f['properties']` that the function reads.
`lots` holds each constituent lot's `type_local` value (`none` = key absent);
`valeur_fonciere` / `surface_terrain` are `none` when the key is absent. -/
structure Transaction where
  nature_mutation : Option String
  lots : List (Option String)
  valeur_fonciere : Option ℚ
  surface_terrain : Option ℚ
deriving DecidableEq

/-- The list comprehension `[l.get('type_local') for l in props.get('lots', [])
if l.get('type_local')]`: keep only truthy values (drops `None` and `""`). -/
def truthy_types (lots : List (Option String)) : List String :=
  lots.filterMap (fun o =>
    match o with
    | none => none
    | some s => if s = "" then none else some s)

/-- One iteration of the filtering loop of `get_land_price_estimate`
(`agent_tools.py` lines 190–226): the price/m² this record contributes, or
`none` when it is skipped.  `if valeur and surface and surface > 0` tests
Python truthiness, i.e. presence and non-zero, then positivity.  (The
source also computes an `is_terrain` flag on line 207 that it never uses.) -/
def dvf_candidate (t : Transaction) : Option ℚ :=
  if t.nature_mutation ≠ some "Vente" then none
  else
    match t.valeur_fonciere, t.surface_terrain with
    | some valeur, some surface =>
      if valeur ≠ 0 ∧ surface ≠ 0 ∧ 0 < surface then
        let types := truthy_types t.lots
        if "Maison" ∈ types ∨ "Appartement" ∈ types ∨ "Local industriel" ∈ types then
          none
        else
          let pm2 := valeur / surface
          if 10 < pm2 ∧ pm2 < 2000 then some pm2 else none
      else none
    | _, _ => none

/-- The `prices_m2` list accumulated by the loop, in record order. -/
def dvf_candidates (features : List Transaction) : List ℚ :=
  features.filterMap dvf_candidate

/-- `get_land_price_estimate` (`agent_tools.py` lines 174–237) after the
radius query returned `features`: filter, sort ascending in place, take the
element at index `len // 2`, return it rounded (`round(median)`); `None`
when no candidate survives. -/
def get_land_price_estimate (features : List Transaction) : Option ℤ :=
  let prices_m2 := dvf_candidates features
  if prices_m2.isEmpty then none
  else
    some (roundHalfEven ((List.insertionSort (· ≤ ·) prices_m2).getD (prices_m2.length / 2) 0))

/-- The per-record filter as the spec/claim words it (refinement reference
for the filter of `get_land_price_estimate`): keep a record only if its sale
nature is "Vente", none of its constituent lots is a built type (house,
apartment, industrial premises), its land surface is strictly positive and
its price/m² lies strictly inside the band (10, 2000). -/
def candidate_per_spec (t : Transaction) : Option ℚ :=
  match t.valeur_fonciere, t.surface_terrain with
  | some valeur, some surface =>
    if t.nature_mutation = some "Vente"
        ∧ (∀ l ∈ t.lots, l ≠ some "Maison" ∧ l ≠ some "Appartement"
            ∧ l ≠ some "Local industriel")
        ∧ 0 < surface ∧ 10 < valeur / surface ∧ valeur / surface < 2000
    then some (valeur / surface) else none
  | _, _ => none

/-- The five probe points built by `compute_slope` (`agent_tools.py`
lines 55–64): centre, then 10–11 m offsets north, south, east, west,
as an angular offset of 0.0001°. -/
def slope_probes (cx cy : ℚ) : List (ℚ × ℚ) :=
  let offset : ℚ := 1/10000
  [(cx, cy), (cx, cy + offset), (cx, cy - offset), (cx + offset, cy), (cx - offset, cy)]

/-- `compute_slope` (`agent_tools.py` lines 39–92).
`g` is the centroid of the input geometry: `none` models a malformed or
empty geometry, whose centroid coordinate access raises inside the `try`
block and is caught by the outer `except`, returning `(None, None)`.
`fetch` is the remote batched elevation call `get_elevation_points`
(lines 10–37): it returns `none` when the HTTP call fails (the function's
own `try/except` turns any error into `None`).  `if not zs: return None,
None` covers `None` and the empty list; unpacking `z_c, z_n, z_s, z_e,
z_w = zs` raises for any other length than 5 and is caught by the outer
`except`, again yielding `(None, None)` — so every failure is the single
unavailable marker `none`. -/
def compute_slope (g : Option (ℚ × ℚ)) (fetch : List (ℚ × ℚ) → Option (List ℚ)) :
    Option (ℚ × ℚ) :=
  match g with
  | none => none
  | some (cx, cy) =>
    match fetch (slope_probes cx cy) with
    | none => none
    | some zs =>
      if zs.isEmpty then none
      else
        match zs with
        | [z_c, z_n, z_s, z_e, z_w] =>
          let dist : ℚ := 11
          let dz_ns := |z_n - z_s|
          let dz_ew := |z_e - z_w|
          let slope_ns := (dz_ns / (2 * dist)) * 100
          let slope_ew := (dz_ew / (2 * dist)) * 100
          let slope_max := max slope_ns slope_ew
          some (pyRound1 slope_max, pyRound1 z_c)
        | _ => none

/-- The transcendental functions of Python's `math` module, abstracted: the
haversine arithmetic is proved for every interpretation of `pi`, `sin`,
`cos`, `sqrt` and `atan2`. -/
structure RealOracle where
  pi : ℚ
  sin : ℚ → ℚ
  cos : ℚ → ℚ
  sqrt : ℚ → ℚ
  atan2 : ℚ → ℚ → ℚ

/-- `math.radians(x) = x · π / 180`. -/
def radians (O : RealOracle) (x : ℚ) : ℚ := x * O.pi / 180

/-- `get_transport_info` (`agent_tools.py` lines 148–172): haversine
distance from `(lat, lon)` to the Olympe Gondola hub (45.4526, 6.5658),
Earth radius 6 371 000 m, rounded to the nearest metre (`round`), paired
with the hub name.  (The source computes `dist = round(R * c)` twice in a
row; the second assignment is identical and idempotent.) -/
def get_transport_info (O : RealOracle) (lat lon : ℚ) : ℤ × String :=
  let hub_lat : ℚ := 45.4526
  let hub_lon : ℚ := 6.5658
  let R : ℚ := 6371000
  let phi1 := radians O lat
  let phi2 := radians O hub_lat
  let dphi := radians O (hub_lat - lat)
  let dlambda := radians O (hub_lon - lon)
  let a := (O.sin (dphi / 2)) ^ 2 + O.cos phi1 * O.cos phi2 * (O.sin (dlambda / 2)) ^ 2
  let c := 2 * O.atan2 (O.sqrt a) (O.sqrt (1 - a))
  let dist := roundHalfEven (R * c)
  (dist, "Olympe Gondola")

/-- The standard haversine great-circle distance as the spec words it
(refinement reference): `hav θ = sin²(θ/2)`,
`a = hav Δφ + cos φ₁ · cos φ₂ · hav Δλ`, `c = 2·atan2(√a, √(1−a))`,
distance `= R · c` rounded to the nearest metre. -/
def haversine_spec (O : RealOracle) (R lat1 lon1 lat2 lon2 : ℚ) : ℤ :=
  let hav : ℚ → ℚ := fun theta => (O.sin (theta / 2)) ^ 2
  let phi1 := radians O lat1
  let phi2 := radians O lat2
  let dphi := radians O (lat2 - lat1)
  let dlambda := radians O (lon2 - lon1)
  let a := hav dphi + O.cos phi1 * O.cos phi2 * hav dlambda
  let c := 2 * O.atan2 (O.sqrt a) (O.sqrt (1 - a))
  roundHalfEven (R * c)

/-- The parcel table of `analyzer.py`, at the granularity the batch
enrichment needs: the parcel ids plus the three derived columns, each
`none` while the column is absent from the frame (`'col' not in
parcels_gdf.columns`), and `some` of one value per row once created. -/
structure Frame where
  ids : List String
  slope_mean : Option (List (Option ℚ))
  buildable_area_sqm : Option (List ℚ)
  owner_name : Option (List String)
deriving DecidableEq

/-- A freshly constructed dataset: ids only, none of the derived columns. -/
def fresh_frame (ids : List String) : Frame :=
  { ids := ids, slope_mean := none, buildable_area_sqm := none, owner_name := none }

/-- `calculate_slope` with no DEM supplied (`analyzer.py` lines 16–21):
`parcels_gdf['slope_mean'] = None` when the column is absent, otherwise
the frame is returned unchanged. -/
def calculate_slope_noDem (f : Frame) : Frame :=
  match f.slope_mean with
  | none => { f with slope_mean := some (f.ids.map fun _ => none) }
  | some _ => f

/-- `calculate_buildable` with no PLU layer supplied (`analyzer.py`
lines 47–51): `parcels_gdf['buildable_area_sqm'] = 0` when the column is
absent, otherwise unchanged. -/
def calculate_buildable_noPlu (f : Frame) : Frame :=
  match f.buildable_area_sqm with
  | none => { f with buildable_area_sqm := some (f.ids.map fun _ => (0 : ℚ)) }
  | some _ => f

/-- `add_owners` with no ownership table supplied (`analyzer.py`
lines 89–92): `parcels_gdf['owner_name'] = "Unknown"` when the column is
absent, otherwise unchanged. -/
def add_owners_noOwners (f : Frame) : Frame :=
  match f.owner_name with
  | none => { f with owner_name := some (f.ids.map fun _ => "Unknown") }
  | some _ => f

/-- Modelled from the spec: the BatchAnalyzer driver (`main.py`, the
initial dataset-construction entry point referenced by `server.py`, is not
present under `src/`) "runs slope, buildable-area, and owner-merge
computations over an entire dataset"; with no raster, no zoning layer and
no ownership table supplied, each of the three `analyzer.py` steps takes
its input-absent branch embedded above.  Total by construction — no step
can raise. -/
def batch_analyze_noInputs (f : Frame) : Frame :=
  add_owners_noOwners (calculate_buildable_noPlu (calculate_slope_noDem f))

/-- One row of the shared `GLOBAL_GDF` table, at the granularity the
enrichment write phase touches: the parcel id and the four computed
columns written by `agent_fetch` (`app.py` / `server.py`). -/
structure Row where
  id : String
  slope_mean : Option ℚ
  address : Option String
  dist_to_hub : Option ℤ
  est_price_m2 : Option ℤ
deriving DecidableEq

/-- The outcome of the unlocked compute phase of `agent_fetch`
(`compute_slope`, `get_owner_info`, `get_address`, `get_transport_info`,
`get_land_price_estimate`), passed to the write phase.  `elevation` is
returned to the client but never written to the table.  `dist` is always
produced (`get_transport_info` cannot fail). -/
structure Computed where
  slope : Option ℚ
  elevation : Option ℚ
  address : Option String
  dist : ℤ
  price : Option ℤ

/-- The shared store: the in-memory table (`GLOBAL_GDF`) and the durable
file (`analysis_73057.geojson`, rewritten whole by `to_file`). -/
structure StoreState where
  table : List Row
  file : List Row
deriving DecidableEq

/-- Outcome of one `agent_fetch` call: HTTP 200, 404, or 502. -/
inductive FetchResult where
  | success
  | notFound
  | agentFailed
deriving DecidableEq

/-- Replace the row at position `i` by `f` of it; out-of-range leaves the
list unchanged (models `.at[label]` on a `RangeIndex`-labelled frame). -/
def setAt (l : List Row) (i : ℕ) (f : Row → Row) : List Row :=
  match l, i with
  | [], _ => []
  | r :: rs, 0 => f r :: rs
  | r :: rs, n + 1 => r :: setAt rs n f

/-- The four `.at[idx, col] = value` assignments of the write phase:
`slope_mean`, `address`, `dist_to_hub`, `est_price_m2`. -/
def writeFields (c : Computed) (slopeVal : ℚ) (r : Row) : Row :=
  { r with slope_mean := some slopeVal, address := c.address,
           dist_to_hub := some c.dist, est_price_m2 := c.price }

/-- `agent_fetch` (`app.py` lines 37–116, `server.py` lines 186–265) as a
state transition, with the unlocked compute phase's results supplied in
`c` and any concurrent mutation of the shared table between the two locked
sections modelled by `between`.
Locked read: resolve the parcel by id, cache `idx = target.index[0]`.
Unlocked compute.  Write phase (`if slope is not None`): re-acquire the
lock and assign through the cached `idx` — the source does **not**
re-resolve by id — then persist the whole table; on `slope is None`
return 502 with no write. -/
def agent_fetch_between (s : StoreState) (between : List Row → List Row)
    (parcel_id : String) (c : Computed) : FetchResult × StoreState :=
  match s.table.findIdx? (fun r => r.id == parcel_id) with
  | none => (.notFound, s)
  | some idx =>
    let t1 := between s.table
    match c.slope with
    | none => (.agentFailed, { s with table := t1 })
    | some sl =>
      let t2 := setAt t1 idx (writeFields c sl)
      (.success, { table := t2, file := t2 })

/-- `agent_fetch` when no concurrent mutation interleaves the two locked
sections. -/
def agent_fetch (s : StoreState) (parcel_id : String) (c : Computed) :
    FetchResult × StoreState :=
  agent_fetch_between s (fun t => t) parcel_id c

lemma roundHalfEven_eq_of_floor (q : ℚ) (n : ℤ) (hn : ⌊q⌋ = n) :
    roundHalfEven q =
      if q - n < 1/2 then n else if 1/2 < q - n then n + 1
      else if n % 2 = 0 then n else n + 1 := by
  simp [roundHalfEven, hn]

lemma mem_truthy_types_iff (lots : List (Option String)) (x : String) (hx : x ≠ "") :
    x ∈ truthy_types lots ↔ some x ∈ lots := by
  unfold truthy_types
  rw [List.mem_filterMap]
  constructor
  · rintro ⟨o, ho, hfo⟩
    cases o with
    | none => simp at hfo
    | some s =>
      by_cases hs : s = ""
      · simp [hs] at hfo
      · simp [hs] at hfo
        subst hfo
        exact ho
  · intro h
    exact ⟨some x, h, by simp [hx]⟩

lemma built_lot_iff (lots : List (Option String)) :
    ("Maison" ∈ truthy_types lots ∨ "Appartement" ∈ truthy_types lots ∨
      "Local industriel" ∈ truthy_types lots)
    ↔ ¬ ∀ l ∈ lots, l ≠ some "Maison" ∧ l ≠ some "Appartement" ∧
        l ≠ some "Local industriel" := by
  rw [mem_truthy_types_iff _ _ (by decide), mem_truthy_types_iff _ _ (by decide),
    mem_truthy_types_iff _ _ (by decide)]
  constructor
  · rintro (h | h | h) hall
    · exact (hall _ h).1 rfl
    · exact (hall _ h).2.1 rfl
    · exact (hall _ h).2.2 rfl
  · intro h
    by_contra hc
    push_neg at hc
    apply h
    intro l hl
    refine ⟨?_, ?_, ?_⟩ <;> rintro rfl
    · exact hc.1 hl
    · exact hc.2.1 hl
    · exact hc.2.2 hl

lemma dvf_candidate_eq_spec (t : Transaction) : dvf_candidate t = candidate_per_spec t := by
  obtain ⟨nm, lots, vf, st⟩ := t
  by_cases hn : nm = some "Vente"
  · cases vf with
    | none => simp [dvf_candidate, candidate_per_spec, hn]
    | some v =>
      cases st with
      | none => simp [dvf_candidate, candidate_per_spec, hn]
      | some s =>
        by_cases hb : ∀ l ∈ lots, l ≠ some "Maison" ∧ l ≠ some "Appartement" ∧
            l ≠ some "Local industriel"
        · have hbm : ¬("Maison" ∈ truthy_types lots ∨ "Appartement" ∈ truthy_types lots ∨
              "Local industriel" ∈ truthy_types lots) := by
            rw [built_lot_iff]
            exact not_not_intro hb
          by_cases h1 : (0 : ℚ) < s
          · by_cases h2 : (10 : ℚ) < v / s
            · by_cases h3 : v / s < 2000
              · have hv : v ≠ 0 := by
                  intro h0
                  rw [h0, zero_div] at h2
                  norm_num at h2
                have hs : s ≠ 0 := ne_of_gt h1
                simp [dvf_candidate, candidate_per_spec, hn, hbm, hb, hv, hs, h1, h2, h3]
                exact hb
              · simp [dvf_candidate, candidate_per_spec, hn, hbm, hb, h1, h3]
            · simp [dvf_candidate, candidate_per_spec, hn, hbm, hb, h1, h2]
          · simp [dvf_candidate, candidate_per_spec, hn, h1]
        · have hbm : ("Maison" ∈ truthy_types lots ∨ "Appartement" ∈ truthy_types lots ∨
              "Local industriel" ∈ truthy_types lots) := (built_lot_iff lots).mpr hb
          simp [dvf_candidate, candidate_per_spec, hn, hbm, hb]
  · cases vf <;> cases st <;> simp [dvf_candidate, candidate_per_spec, hn]

/-- C4: a DVF record survives the filter of `get_land_price_estimate`
exactly when its sale nature is "Vente", none of its constituent lots is a
built type (Maison, Appartement, Local industriel), its land surface is
strictly positive and its price/m² `valeur / surface` lies strictly inside
(10, 2000); every record failing any condition contributes nothing. -/
theorem dvf_filter_matches_spec :
    (∀ t : Transaction, dvf_candidate t = candidate_per_spec t) ∧
    ∀ features : List Transaction,
      dvf_candidates features = features.filterMap candidate_per_spec := by
  have hfun : dvf_candidate = candidate_per_spec := funext dvf_candidate_eq_spec
  exact ⟨dvf_candidate_eq_spec, fun features => by rw [dvf_candidates, hfun]⟩

/-- C3 (amended): with a non-empty surviving candidate list, the estimator
returns the median — the element at index `⌊n/2⌋` (lower-middle for even
counts) of any ascending sorting of the candidates — rounded to the
nearest integer (ties to even); with no surviving candidate it returns the
unavailable marker `none`, never zero. -/
theorem land_price_median (features : List Transaction) :
    (dvf_candidates features = [] → get_land_price_estimate features = none) ∧
    ∀ sorted : List ℚ, sorted.Perm (dvf_candidates features) →
      sorted.Sorted (· ≤ ·) → dvf_candidates features ≠ [] →
      get_land_price_estimate features =
        some (roundHalfEven (sorted.getD (sorted.length / 2) 0)) := by
  constructor
  · intro h
    unfold get_land_price_estimate
    simp [h]
  · intro sorted hperm hsort hne
    have heq : sorted = List.insertionSort (· ≤ ·) (dvf_candidates features) :=
      List.eq_of_perm_of_sorted (hperm.trans (List.perm_insertionSort _ _).symm)
        hsort (List.sorted_insertionSort _ _)
    have hlen : sorted.length = (dvf_candidates features).length := hperm.length_eq
    unfold get_land_price_estimate
    rw [if_neg (by simpa using hne), hlen, heq]

theorem land_price_median_witness :
    get_land_price_estimate [⟨some "Vente", [], some 201, some 2⟩] =
      some (roundHalfEven (List.getD [(201 : ℚ)/2] (List.length [(201 : ℚ)/2] / 2) 0)) := by
  have hc : dvf_candidates [⟨some "Vente", [], some 201, some 2⟩] = [(201 : ℚ)/2] := by
    simp only [dvf_candidates, List.filterMap_cons, List.filterMap_nil, dvf_candidate,
      truthy_types]
    norm_num
  exact (land_price_median [⟨some "Vente", [], some 201, some 2⟩]).2 [(201 : ℚ)/2]
    (by rw [hc]) (List.sorted_singleton _)
    (by rw [hc]; exact List.cons_ne_nil _ _)

/-- C3 counterexample to the claim as stated: one surviving candidate with
price/m² `201/2 = 100.5`; the call returns `100`, not the median `100.5` —
the source rounds the median with `round(...)` before returning it. -/
theorem land_price_median_counterexample :
    get_land_price_estimate [⟨some "Vente", [], some 201, some 2⟩] = some 100 ∧
    List.insertionSort (· ≤ ·)
      (dvf_candidates [⟨some "Vente", [], some 201, some 2⟩]) = [(201 : ℚ)/2] ∧
    (100 : ℚ) ≠ 201/2 := by
  have hc : dvf_candidates [⟨some "Vente", [], some 201, some 2⟩] = [(201 : ℚ)/2] := by
    simp only [dvf_candidates, List.filterMap_cons, List.filterMap_nil, dvf_candidate,
      truthy_types]
    norm_num
  have hround : roundHalfEven ((201 : ℚ)/2) = 100 := by
    rw [roundHalfEven_eq_of_floor _ 100 (by norm_num [Int.floor_eq_iff])]
    norm_num
  refine ⟨?_, by rw [hc]; simp [List.insertionSort, List.orderedInsert], by norm_num⟩
  unfold get_land_price_estimate
  rw [hc]
  simpa using hround

/-- C5: whenever the remote elevation call fails (`None`) or returns fewer
than 5 values, `compute_slope` reports the unavailable marker — no slope
and no elevation are produced. -/
theorem compute_slope_unavailable_on_failure (cx cy : ℚ)
    (fetch : List (ℚ × ℚ) → Option (List ℚ))
    (h : fetch (slope_probes cx cy) = none ∨
         ∃ l, fetch (slope_probes cx cy) = some l ∧ l.length < 5) :
    compute_slope (some (cx, cy)) fetch = none := by
  rcases h with h | ⟨l, hl, hlen⟩
  · simp [compute_slope, h]
  · rcases l with _ | ⟨a, l⟩
    · simp [compute_slope, hl]
    rcases l with _ | ⟨b, l⟩
    · simp [compute_slope, hl]
    rcases l with _ | ⟨c, l⟩
    · simp [compute_slope, hl]
    rcases l with _ | ⟨d, l⟩
    · simp [compute_slope, hl]
    rcases l with _ | ⟨e, l⟩
    · simp [compute_slope, hl]
    · simp only [List.length_cons] at hlen
      omega

theorem compute_slope_unavailable_on_failure_witness :
    compute_slope (some ((0 : ℚ), (0 : ℚ))) (fun _ => none) = none :=
  compute_slope_unavailable_on_failure 0 0 (fun _ => none) (Or.inl rfl)

/-- C6 (amended): on a successful five-point sample `(center, north,
south, east, west)` the slope returned is
`max((|z_n − z_s| / (2·dist))·100, (|z_e − z_w| / (2·dist))·100)` rounded
to one decimal, with `dist = 11` the fixed ground distance of one cardinal
offset; when all five probed elevations are equal the returned slope is
`0.0` and the returned elevation is the center value rounded to one
decimal. -/
theorem compute_slope_formula (p : ℚ × ℚ) (zc zn zsn ze zw : ℚ) :
    compute_slope (some p) (fun _ => some [zc, zn, zsn, ze, zw]) =
      some (pyRound1 (max ((|zn - zsn| / (2 * 11)) * 100) ((|ze - zw| / (2 * 11)) * 100)),
            pyRound1 zc) ∧
    ∀ z : ℚ, compute_slope (some p) (fun _ => some [z, z, z, z, z]) =
      some (0, pyRound1 z) := by
  obtain ⟨cx, cy⟩ := p
  constructor
  · rfl
  · intro z
    have h0 : pyRound1 (0 : ℚ) = 0 := by
      have : roundHalfEven (0 : ℚ) = 0 := by
        rw [roundHalfEven_eq_of_floor _ 0 (by norm_num)]
        norm_num
      simp [pyRound1, this]
    simp [compute_slope, h0]

/-- C6 counterexample to the claim as stated: with all five probes equal
to `1200.07`, the call returns elevation `1200.1`, not the center value
`1200.07` — the source rounds the center elevation with `round(z_c, 1)`. -/
theorem compute_slope_center_rounding_counterexample :
    compute_slope (some ((0 : ℚ), (0 : ℚ)))
        (fun _ => some [120007/100, 120007/100, 120007/100, 120007/100, 120007/100]) =
      some (0, 12001/10) ∧ (12001 : ℚ)/10 ≠ 120007/100 := by
  have h0 : pyRound1 (0 : ℚ) = 0 := by
    have : roundHalfEven (0 : ℚ) = 0 := by
      rw [roundHalfEven_eq_of_floor _ 0 (by norm_num)]
      norm_num
    simp [pyRound1, this]
  have hz : pyRound1 ((120007 : ℚ)/100) = 12001/10 := by
    have hm : (120007 : ℚ)/100 * 10 = 120007/10 := by norm_num
    have : roundHalfEven ((120007 : ℚ)/10) = 12001 := by
      rw [roundHalfEven_eq_of_floor _ 12000 (by norm_num [Int.floor_eq_iff])]
      norm_num
    simp [pyRound1, hm, this]
  constructor
  · simp [compute_slope, h0, hz]
  · norm_num

/-- C8: the slope estimate is symmetric in the probe labels — swapping
which of the two opposite probes is "north" vs "south" (resp. "east" vs
"west") leaves `dz_ns` (resp. `dz_ew`), and hence the final result,
unchanged. -/
theorem compute_slope_probe_symmetry (g : Option (ℚ × ℚ)) (zc zn zsn ze zw : ℚ) :
    compute_slope g (fun _ => some [zc, zsn, zn, ze, zw]) =
      compute_slope g (fun _ => some [zc, zn, zsn, ze, zw]) ∧
    compute_slope g (fun _ => some [zc, zn, zsn, zw, ze]) =
      compute_slope g (fun _ => some [zc, zn, zsn, ze, zw]) := by
  cases g with
  | none => exact ⟨rfl, rfl⟩
  | some p =>
    obtain ⟨cx, cy⟩ := p
    constructor <;> simp [compute_slope, abs_sub_comm]

/-- C9: the distance to the fixed transport hub is the great-circle
distance given by the standard haversine formula with Earth radius
6 371 000 m, rounded to the nearest metre — for every interpretation of
the transcendental functions and every centroid. -/
theorem transport_distance_haversine (O : RealOracle) (lat lon : ℚ) :
    get_transport_info O lat lon =
      (haversine_spec O 6371000 lat lon 45.4526 6.5658, "Olympe Gondola") := rfl

/-- C10: `compute_slope` is total — for every geometry (malformed included)
and every outcome of the remote call it either returns the unavailable
marker `none` or a full result computed from an exact five-point sample;
no exception escapes and no partial result is produced. -/
theorem compute_slope_total (g : Option (ℚ × ℚ))
    (fetch : List (ℚ × ℚ) → Option (List ℚ)) :
    compute_slope g fetch = none ∨
    ∃ cx cy zc zn zsn ze zw, g = some (cx, cy) ∧
      fetch (slope_probes cx cy) = some [zc, zn, zsn, ze, zw] ∧
      compute_slope g fetch =
        some (pyRound1 (max ((|zn - zsn| / (2 * 11)) * 100) ((|ze - zw| / (2 * 11)) * 100)),
              pyRound1 zc) := by
  cases g with
  | none => exact Or.inl rfl
  | some p =>
    obtain ⟨cx, cy⟩ := p
    cases hf : fetch (slope_probes cx cy) with
    | none => exact Or.inl (by simp [compute_slope, hf])
    | some zs =>
      rcases zs with _ | ⟨a, zs⟩
      · exact Or.inl (by simp [compute_slope, hf])
      rcases zs with _ | ⟨b, zs⟩
      · exact Or.inl (by simp [compute_slope, hf])
      rcases zs with _ | ⟨c, zs⟩
      · exact Or.inl (by simp [compute_slope, hf])
      rcases zs with _ | ⟨d, zs⟩
      · exact Or.inl (by simp [compute_slope, hf])
      rcases zs with _ | ⟨e, zs⟩
      · exact Or.inl (by simp [compute_slope, hf])
      rcases zs with _ | ⟨f, zs⟩
      · exact Or.inr ⟨cx, cy, a, b, c, d, e, rfl, hf, by simp [compute_slope, hf]⟩
      · exact Or.inl (by simp [compute_slope, hf])

/-- C2: when the slope computation reports unavailable, the whole
`agent_fetch` call returns a failure (HTTP 502, or 404 when the id is
unknown) and performs no write at all: the in-memory table and the durable
file are returned exactly as they were, with none of the other computed
fields (address, distance, price) written. -/
theorem agent_fetch_slope_unavailable_no_write (s : StoreState) (parcel_id : String)
    (c : Computed) (h : c.slope = none) :
    (agent_fetch s parcel_id c).2 = s ∧
    ((agent_fetch s parcel_id c).1 = FetchResult.agentFailed ∨
     (agent_fetch s parcel_id c).1 = FetchResult.notFound) := by
  unfold agent_fetch agent_fetch_between
  cases hidx : s.table.findIdx? (fun r => r.id == parcel_id) with
  | none => exact ⟨rfl, Or.inr rfl⟩
  | some idx =>
    rw [h]
    exact ⟨rfl, Or.inl rfl⟩

theorem agent_fetch_slope_unavailable_no_write_witness :
    (agent_fetch ⟨[⟨"P1", none, none, none, none⟩], [⟨"P1", none, none, none, none⟩]⟩
        "P1" ⟨none, none, none, 0, none⟩).2 =
      ⟨[⟨"P1", none, none, none, none⟩], [⟨"P1", none, none, none, none⟩]⟩ ∧
    ((agent_fetch ⟨[⟨"P1", none, none, none, none⟩], [⟨"P1", none, none, none, none⟩]⟩
        "P1" ⟨none, none, none, 0, none⟩).1 = FetchResult.agentFailed ∨
     (agent_fetch ⟨[⟨"P1", none, none, none, none⟩], [⟨"P1", none, none, none, none⟩]⟩
        "P1" ⟨none, none, none, 0, none⟩).1 = FetchResult.notFound) :=
  agent_fetch_slope_unavailable_no_write _ _ _ rfl

/-- C1, evaluated at the failing input: the table holds parcels "P1" and
"P2"; "P1" is requested and resolved to position 0 under the lock; between
the locked read and the locked write the rows are reordered to
["P2", "P1"]; the write phase then assigns through the cached position, so
the computed fields (slope 5, address "addr", distance 1234, price 50)
land on the row whose id is "P2" while the requested row "P1" is left
untouched — the source never re-resolves the parcel by id at write time,
contradicting the claim (and the source's own comments). -/
theorem agent_fetch_stale_write_bug :
    (agent_fetch_between
       ⟨[⟨"P1", none, none, none, none⟩, ⟨"P2", none, none, none, none⟩],
        [⟨"P1", none, none, none, none⟩, ⟨"P2", none, none, none, none⟩]⟩
       (fun _ => [⟨"P2", none, none, none, none⟩, ⟨"P1", none, none, none, none⟩])
       "P1" ⟨some 5, some 1200, some "addr", 1234, some 50⟩).2.table =
      [⟨"P2", some 5, some "addr", some 1234, some 50⟩,
       ⟨"P1", none, none, none, none⟩] := rfl

/-- C7 (amended): batch enrichment of a dataset with no raster, no zoning
layer and no ownership table supplied does not raise (the model is total)
and yields `buildable_area_sqm = 0` and `owner_name = "Unknown"` for every
parcel. -/
theorem batch_defaults_on_missing_inputs (ids : List String) :
    (batch_analyze_noInputs (fresh_frame ids)).buildable_area_sqm =
      some (ids.map fun _ => (0 : ℚ)) ∧
    (batch_analyze_noInputs (fresh_frame ids)).owner_name =
      some (ids.map fun _ => "Unknown") :=
  ⟨rfl, rfl⟩

/-- C7 counterexample to the claim as stated: the owner sentinel written
by `add_owners` is the capitalised string `"Unknown"`, not `"unknown"`. -/
theorem batch_owner_sentinel_counterexample :
    (batch_analyze_noInputs (fresh_frame ["73057000AA0012"])).owner_name =
      some ["Unknown"] ∧ "Unknown" ≠ "unknown" :=
  ⟨rfl, by decide⟩
